import Mathlib

/-!
Shallow embedding of the `mmmegamarket` client (api_client.py, auth.py,
models.py, stores.py, config.py, server.py) and proofs about it.

Python JSON values are modelled by `MM.Json`; Python exceptions (KeyError,
TypeError, AttributeError, pydantic validation errors) by `MM.PyErr` through
the `Except` monad.  Machine floats from the source are modelled as exact
rationals; the properties below concern only field access, control flow,
ordering and exact arithmetic identities, which agree between the two.
-/

namespace MM

/-- Error values standing for the Python exceptions that the client code can
raise while handling a response. -/
inductive PyErr where
  | keyError (k : String)
  | typeError
  | attrError
  | valueError
deriving DecidableEq, Repr

/-- Parsed JSON values, as returned by `response.json()`. -/
inductive Json where
  | null
  | bool (b : Bool)
  | num (q : ℚ)
  | str (s : String)
  | arr (xs : List Json)
  | obj (fields : List (String × Json))
deriving Repr

/-- Python truthiness (`bool(x)`): empty containers, empty strings, zero and
`None` are falsy. -/
def Json.truthy : Json → Bool
  | .null => false
  | .bool b => b
  | .num q => decide (q ≠ 0)
  | .str s => decide (s ≠ "")
  | .arr xs => !xs.isEmpty
  | .obj fs => !fs.isEmpty

/-- Test whether `pat` is a leading segment of `s` (character lists). -/
def listStartsWith : List Char → List Char → Bool
  | [], _ => true
  | _ :: _, [] => false
  | c :: cs, d :: ds => c == d && listStartsWith cs ds

/-- Test whether `needle` occurs as a contiguous run inside `hay`. -/
def listContainsSub (needle : List Char) : List Char → Bool
  | [] => needle.isEmpty
  | d :: ds => listStartsWith needle (d :: ds) || listContainsSub needle ds

/-- Python `needle in hay` on strings (substring test). -/
def pyInStr (needle hay : String) : Bool :=
  listContainsSub needle.toList hay.toList

/-- One step of Python `str.replace`: replace every non-overlapping occurrence
of `pat`, scanning left to right.  `fuel` bounds the recursion; callers pass
the length of the subject so the bound is never hit. -/
def replaceFuel (pat rep : List Char) : Nat → List Char → List Char
  | 0, s => s
  | fuel + 1, s =>
    match s with
    | [] => []
    | c :: cs =>
      if pat ≠ [] ∧ listStartsWith pat s then
        rep ++ replaceFuel pat rep fuel (s.drop pat.length)
      else
        c :: replaceFuel pat rep fuel cs

/-- Python `s.replace(pat, rep)` for a non-empty pattern. -/
def pyReplace (s pat rep : String) : String :=
  (replaceFuel pat.toList rep.toList s.toList.length s.toList).asString

/-- ASCII lower-casing of one character (the error messages and store codes
this development manipulates are ASCII). -/
def lowerChar (c : Char) : Char :=
  if 65 ≤ c.toNat ∧ c.toNat ≤ 90 then Char.ofNat (c.toNat + 32) else c

/-- Python `s.lower()` restricted to ASCII subjects. -/
def pyLower (s : String) : String :=
  (s.toList.map lowerChar).asString

/-- Decimal rendering of a rational, standing in for Python float/int
rendering inside `repr`; only its letter-freeness matters to the proofs. -/
def reprNum (q : ℚ) : String :=
  toString q.num ++ (if q.den == 1 then "" else "/" ++ toString q.den)

mutual

/-- Python `repr` of a JSON value (dicts print as `\x7b'k': v\x7d`, strings
with surrounding quotes). -/
def pyRepr : Json → String
  | .null => "None"
  | .bool true => "True"
  | .bool false => "False"
  | .num q => reprNum q
  | .str s => "\x27" ++ s ++ "\x27"
  | .arr xs => "[" ++ pyReprElems xs ++ "]"
  | .obj fs => "\x7b" ++ pyReprFields fs ++ "\x7d"

/-- Comma-separated reprs of the elements of a JSON array. -/
def pyReprElems : List Json → String
  | [] => ""
  | [x] => pyRepr x
  | x :: y :: xs => pyRepr x ++ ", " ++ pyReprElems (y :: xs)

/-- Comma-separated `'key': value` reprs of the fields of a JSON object. -/
def pyReprFields : List (String × Json) → String
  | [] => ""
  | [(k, v)] => "\x27" ++ k ++ "\x27: " ++ pyRepr v
  | (k, v) :: f :: fs => "\x27" ++ k ++ "\x27: " ++ pyRepr v ++ ", " ++ pyReprFields (f :: fs)

end

/-- Python `str(x)`: a string renders as itself, anything else as its repr. -/
def pyStr : Json → String
  | .str s => s
  | j => pyRepr j

/-- Python `k in j`: key test on dicts, substring test on strings, element
equality on lists; a `TypeError` on the remaining kinds. -/
def pyContains (j : Json) (k : String) : Except PyErr Bool :=
  match j with
  | .obj fs => .ok (fs.any (fun f => f.1 == k))
  | .str s => .ok (pyInStr k s)
  | .arr xs => .ok (xs.any (fun el => match el with | .str t => t == k | _ => false))
  | _ => .error .typeError

/-- Python `j[k]` for a string key: dict lookup raising `KeyError` when the
key is absent, `TypeError` on non-dicts. -/
def pyGet (j : Json) (k : String) : Except PyErr Json :=
  match j with
  | .obj fs =>
    match fs.lookup k with
    | some v => .ok v
    | none => .error (.keyError k)
  | _ => .error .typeError

/-- Python `j.get(k, dflt)`: total lookup on dicts, `AttributeError` on
values that have no `.get`. -/
def pyGetDefault (j : Json) (k : String) (dflt : Json) : Except PyErr Json :=
  match j with
  | .obj fs =>
    match fs.lookup k with
    | some v => .ok v
    | none => .ok dflt
  | _ => .error .attrError

/-- Python iteration `for x in j`: elements of a list, characters of a
string, keys of a dict; `TypeError` otherwise. -/
def pyIter : Json → Except PyErr (List Json)
  | .arr xs => .ok xs
  | .str s => .ok (s.toList.map fun c => .str c.toString)
  | .obj fs => .ok (fs.map fun f => .str f.1)
  | _ => .error .typeError

/-- Coerce a JSON value into a number for a pydantic numeric field; any
other shape fails validation. -/
def asNum : Json → Except PyErr ℚ
  | .num q => .ok q
  | _ => .error .valueError

/-- Coerce a JSON value into a string for a pydantic `str` field. -/
def asStr : Json → Except PyErr String
  | .str s => .ok s
  | _ => .error .valueError

/-- Coerce a JSON value into an optional string (`None` becomes absent). -/
def asOptStr : Json → Except PyErr (Option String)
  | .null => .ok none
  | .str s => .ok (some s)
  | _ => .error .valueError

/-- Coerce a JSON value into an optional number (`None` becomes absent). -/
def asOptNum : Json → Except PyErr (Option ℚ)
  | .null => .ok none
  | .num q => .ok (some q)
  | _ => .error .valueError

/-- The two storefronts (api_client.py `PlatformType`). -/
inductive Platform where
  | b2c
  | b2b
deriving DecidableEq, Repr

/-! ### models.py -/

/-- models.py `Price`: a monetary value with a currency code. -/
structure Price where
  value : ℚ
  currency : String
deriving DecidableEq, Repr

/-- models.py `PriceRange`: regular and final prices plus the discount
amount derived at construction. -/
structure PriceRange where
  finalPrice : Price
  regularPrice : Price
  discountAmount : ℚ
deriving DecidableEq, Repr

/-- models.py `PriceRange.__init__` on the path taken by the client, where
`discount_amount` is not passed and is therefore derived as
`regular_price.value - final_price.value`. -/
def mkPriceRange (finalPrice regularPrice : Price) : PriceRange :=
  ⟨finalPrice, regularPrice, regularPrice.value - finalPrice.value⟩

/-- models.py `PriceRange.has_discount`. -/
def PriceRange.hasDiscount (pr : PriceRange) : Bool :=
  decide (pr.discountAmount > 0)

/-- models.py `PriceRange.discount_percentage`. -/
def PriceRange.discountPercentage (pr : PriceRange) : ℚ :=
  if pr.regularPrice.value > 0 then pr.discountAmount / pr.regularPrice.value * 100
  else 0

/-- models.py `Category`. -/
structure Category where
  uid : Option String
  name : String
deriving DecidableEq, Repr

/-- models.py `Product`.  The `scraped_at` wall-clock timestamp is omitted:
no operation modelled here reads it. -/
structure Product where
  id : ℚ
  uid : String
  name : String
  sku : String
  priceRange : PriceRange
  stockStatus : String
  urlKey : String
  smallImageUrl : Option String
  categories : List Category
  ratingSummary : Option ℚ
  platform : Option Platform
deriving DecidableEq, Repr

/-- models.py `Product.price`. -/
def Product.price (p : Product) : ℚ :=
  p.priceRange.finalPrice.value

/-- models.py `Product.full_url`. -/
def Product.fullUrl (p : Product) : String :=
  match p.platform with
  | some .b2c => "https://online.mmvietnam.com/" ++ p.urlKey ++ ".html"
  | some .b2b => "https://mmpro.vn/product/" ++ p.urlKey ++ ".html"
  | none => "/" ++ p.urlKey ++ ".html"

/-- models.py `SearchResult`. -/
structure SearchResult where
  products : List Product
  totalCount : ℚ
  totalPages : ℚ
  currentPage : Int
  platform : Platform
deriving DecidableEq, Repr

/-- models.py `PriceComparison`. -/
structure PriceComparison where
  productId : ℚ
  sku : String
  name : String
  b2cPrice : ℚ
  b2bPrice : ℚ
  difference : ℚ
  savingsPercentage : ℚ
  b2cUrl : String
  b2bUrl : String
deriving DecidableEq, Repr

/-! ### api_client.py `_parse_product` -/

/-- api_client.py `_parse_product`: field accesses in source order; a missing
key raises `KeyError`, `.get` chains fall back to defaults, and pydantic
field validation rejects wrongly-typed leaves. -/
def parseProduct (item : Json) (platform : Platform) : Except PyErr Product := do
  let priceRangeJ ← pyGet item "price_range"
  let priceInfo ← pyGet priceRangeJ "maximum_price"
  let id ← asNum (← pyGet item "id")
  let uid ← asStr (← pyGet item "uid")
  let name ← asStr (← pyGet item "name")
  let sku ← asStr (← pyGet item "sku")
  let fpJ ← pyGet priceInfo "final_price"
  let fpVal ← asNum (← pyGet fpJ "value")
  let fpCur ← asStr (← pyGet fpJ "currency")
  let rpJ ← pyGet priceInfo "regular_price"
  let rpVal ← asNum (← pyGet rpJ "value")
  let rpCur ← asStr (← pyGet rpJ "currency")
  let stockStatus ← asStr (← pyGet item "stock_status")
  let urlKey ← asStr (← pyGet item "url_key")
  let smallImage ← pyGetDefault item "small_image" (.obj [])
  let smallImageUrl ← asOptStr (← pyGetDefault smallImage "url" .null)
  let catsJ ← pyGetDefault item "categories" (.arr [])
  let cats ← pyIter catsJ
  let categories ← cats.mapM (fun cat => do
    let catUid ← asOptStr (← pyGetDefault cat "uid" .null)
    let catName ← asStr (← pyGet cat "name")
    pure (Category.mk catUid catName))
  let ratingSummary ← asOptNum (← pyGetDefault item "rating_summary" .null)
  pure ⟨id, uid, name, sku, mkPriceRange ⟨fpVal, fpCur⟩ ⟨rpVal, rpCur⟩,
        stockStatus, urlKey, smallImageUrl, categories, ratingSummary, some platform⟩

/-! ### api_client.py `_execute_query`

The network is an oracle: `outcome pf vars i` is what the `i`-th physical
`requests.get` against platform `pf` with query variables `vars` produces,
and `authResult k` is whether the `k`-th `authenticate_b2b` call succeeds.
Bearer headers are abstracted by a token version number that
`authenticate_b2b` bumps on success, exactly as the refreshed
`get_b2b_headers()` result changes. -/

/-- What one physical request produces: a `requests.RequestException`
(connection error, timeout, or the non-2xx raised by `raise_for_status`), or
a parsed JSON body. -/
inductive Outcome where
  | netErr
  | resp (j : Json)

/-- The external world seen by one `_execute_query` call. -/
structure NetEnv where
  outcome : Platform → Json → Nat → Outcome
  authResult : Nat → Bool

/-- Observable behaviour of one `_execute_query` call: its return value (or
escaped exception), how many physical requests it issued, the backoff sleeps
it performed, how many re-authentications it attempted, the bearer-token
version sent on each physical request, and how many times the shared
last-request-time watermark was written. -/
structure ExecTrace where
  result : Except PyErr (Option Json)
  nPhysical : Nat
  sleeps : List Nat
  nAuthCalls : Nat
  tokenVersionsUsed : List Nat
  watermarkUpdates : Nat

/-- api_client.py lines 101-103: `platform == "b2b" and any("authorization"
in str(err).lower() for err in data["errors"])`, with Python short-circuit
evaluation (the generator never runs for the consumer backend). -/
def authErrorCheck (platform : Platform) (data : Json) : Except PyErr Bool :=
  match platform with
  | .b2c => .ok false
  | .b2b => do
    let errsJ ← pyGet data "errors"
    let errs ← pyIter errsJ
    .ok (errs.any fun err => pyInStr "authorization" (pyLower (pyStr err)))

/-- The `for attempt in range(retry_attempts)` body of `_execute_query`.
`fuel` is the number of loop iterations left (initially `retryAttempts`),
`attempt` the Python loop variable, `phys` the physical request counter,
`nAuth` the re-authentication counter and `tokenVer` the current bearer
token version.  Falling out of the loop returns `None` (line 119). -/
def execLoop (env : NetEnv) (platform : Platform) (vars : Json)
    (retryAttempts : Nat) :
    Nat → Nat → Nat → Nat → Nat → ExecTrace
  | 0, _, _, _, _ => ⟨.ok none, 0, [], 0, [], 0⟩
  | fuel + 1, attempt, phys, nAuth, tokenVer =>
    match env.outcome platform vars phys with
    | .netErr =>
      -- `except requests.exceptions.RequestException` (lines 112-117)
      if attempt < retryAttempts - 1 then
        let t := execLoop env platform vars retryAttempts fuel
          (attempt + 1) (phys + 1) nAuth tokenVer
        ⟨t.result, t.nPhysical + 1, 2 ^ attempt :: t.sleeps, t.nAuthCalls,
         tokenVer :: t.tokenVersionsUsed, t.watermarkUpdates⟩
      else
        ⟨.ok none, 1, [], 0, [tokenVer], 0⟩
    | .resp data =>
      match pyContains data "errors" with
      | .error e => ⟨.error e, 1, [], 0, [tokenVer], 0⟩
      | .ok true =>
        match authErrorCheck platform data with
        | .error e => ⟨.error e, 1, [], 0, [tokenVer], 0⟩
        | .ok true =>
          if env.authResult nAuth then
            -- re-authentication succeeded: refresh headers, `continue`
            let t := execLoop env platform vars retryAttempts fuel
              (attempt + 1) (phys + 1) (nAuth + 1) (tokenVer + 1)
            ⟨t.result, t.nPhysical + 1, t.sleeps, t.nAuthCalls + 1,
             tokenVer :: t.tokenVersionsUsed, t.watermarkUpdates⟩
          else
            ⟨.ok none, 1, [], 1, [tokenVer], 0⟩
        | .ok false => ⟨.ok none, 1, [], 0, [tokenVer], 0⟩
      | .ok false => ⟨.ok (some data), 1, [], 0, [tokenVer], 0⟩

/-- api_client.py `_execute_query`: one `_rate_limit()` call (a single
watermark write) before the retry loop, then the loop itself. -/
def executeQuery (env : NetEnv) (platform : Platform) (vars : Json)
    (retryAttempts : Nat) : ExecTrace :=
  let t := execLoop env platform vars retryAttempts retryAttempts 0 0 0 0
  ⟨t.result, t.nPhysical, t.sleeps, t.nAuthCalls, t.tokenVersionsUsed,
   t.watermarkUpdates + 1⟩

/-! ### api_client.py `search_products` and `compare_prices` -/

/-- api_client.py lines 180-184: the query-variables dict built inside
`search_products`.  `sortBy` is in scope there but never consulted. -/
def searchVariables (searchTerm : String) (page pageSize : Int)
    (sortBy : String) : Json :=
  .obj [("currentPage", .num (page : ℚ)), ("pageSize", .num (pageSize : ℚ)),
        ("inputText", .str searchTerm)]

/-- api_client.py line 188: the condition `not result or "data" not in
result or "products" not in result["data"]`, with Python short-circuiting. -/
def guardResult (r : Option Json) : Except PyErr Bool :=
  match r with
  | none => .ok true
  | some j =>
    if !j.truthy then .ok true
    else do
      let hasData ← pyContains j "data"
      if !hasData then .ok true
      else do
        let d ← pyGet j "data"
        let hasProducts ← pyContains d "products"
        .ok (!hasProducts)

/-- api_client.py `search_products`.  The caller-facing value is
`Option SearchResult`; a `.error` is an exception escaping the client. -/
def searchProducts (env : NetEnv) (retryAttempts : Nat) (searchTerm : String)
    (platform : Platform) (page pageSize : Int) (sortBy : String) :
    Except PyErr (Option SearchResult) := do
  let vars := searchVariables searchTerm page pageSize sortBy
  let t := executeQuery env platform vars retryAttempts
  let r ← t.result
  let g ← guardResult r
  if g then pure none
  else
    match r with
    | none => pure none
    | some j => do
      let d ← pyGet j "data"
      let productsData ← pyGet d "products"
      let itemsJ ← pyGet productsData "items"
      let items ← pyIter itemsJ
      let products ← items.mapM (fun it => parseProduct it platform)
      let tc ← asNum (← pyGet productsData "total_count")
      let pageInfo ← pyGet productsData "page_info"
      let tp ← asNum (← pyGet pageInfo "total_pages")
      pure (some ⟨products, tc, tp, page, platform⟩)

/-- api_client.py line 271: the dict comprehension `\x7bp.sku: p for p in
b2b_result.products\x7d` followed by `.get(sku)` — on duplicate skus the
later product wins. -/
def skuDictGet (ps : List Product) (sku : String) : Option Product :=
  ps.foldl (fun acc p => if p.sku == sku then some p else acc) none

/-- api_client.py lines 281-296: one `PriceComparison` record built from a
matched consumer/business product pair. -/
def mkComparison (cp bp : Product) : PriceComparison :=
  let difference := cp.price - bp.price
  let savingsPct := if cp.price > 0 then difference / cp.price * 100 else 0
  ⟨cp.id, cp.sku, cp.name, cp.price, bp.price, difference, savingsPct,
   cp.fullUrl, bp.fullUrl⟩

/-- Comparator used by `comparisons.sort(key=lambda x: x.savings_percentage,
reverse=True)`: `a` may precede `b` when its savings percentage is at least
`b`'s. -/
def savingsGE (a b : PriceComparison) : Prop :=
  b.savingsPercentage ≤ a.savingsPercentage

instance : DecidableRel savingsGE :=
  fun a b => inferInstanceAs (Decidable (_ ≤ _))

instance : IsTotal PriceComparison savingsGE :=
  ⟨fun a b => le_total b.savingsPercentage a.savingsPercentage⟩

instance : IsTrans PriceComparison savingsGE :=
  ⟨fun _ _ _ hab hbc => le_trans hbc hab⟩

/-- api_client.py lines 270-301: the join-and-sort step of `compare_prices`
once both searches returned a result.  Python's `list.sort` is a stable
sort; it is modelled by the (stable) insertion sort. -/
def buildComparisons (b2cResult b2bResult : SearchResult) : List PriceComparison :=
  let comps := b2cResult.products.filterMap fun cp =>
    (skuDictGet b2bResult.products cp.sku).map fun bp => mkComparison cp bp
  comps.insertionSort savingsGE

/-- api_client.py `compare_prices`.  A pydantic `SearchResult` instance is
always truthy, so `not b2c_result` holds exactly when the search returned
`None`.  Page and sort arguments are the Python defaults spelled out. -/
def comparePrices (env : NetEnv) (retryAttempts : Nat) (searchTerm : String)
    (maxResults : Int) : Except PyErr (List PriceComparison) := do
  let b2cResult ← searchProducts env retryAttempts searchTerm .b2c 1 maxResults "relevance"
  let b2bResult ← searchProducts env retryAttempts searchTerm .b2b 1 maxResults "relevance"
  match b2cResult, b2bResult with
  | some cr, some br => pure (buildComparisons cr br)
  | _, _ => pure []

/-! ### stores.py -/

/-- stores.py `Store`. -/
structure Store where
  code : String
  name : String
  region : Option String
deriving DecidableEq, Repr

/-- The normalization `code.replace("b2c_", "").replace("mm_",
"").replace("_vi", "")` shared by stores.py `get_b2c_store_code`,
`get_b2b_store_code` and `StoreManager.get_store`. -/
def stripStoreCode (code : String) : String :=
  pyReplace (pyReplace (pyReplace code "b2c_" "") "mm_" "") "_vi" ""

/-- stores.py `Store.get_b2c_store_code`. -/
def Store.getB2cStoreCode (s : Store) : String :=
  "b2c_" ++ stripStoreCode s.code ++ "_vi"

/-- stores.py `Store.get_b2b_store_code`. -/
def Store.getB2bStoreCode (s : Store) : String :=
  "mm_" ++ stripStoreCode s.code ++ "_vi"

/-- stores.py `StoreManager.KNOWN_STORES`. -/
def knownStores : List (String × Store) :=
  [("10010", ⟨"10010", "MM Mega Market An Phú", some "South"⟩),
   ("10015", ⟨"10015", "MM Mega Market Bình Phú", some "South"⟩),
   ("10020", ⟨"10020", "MM Mega Market Bình Tân", some "South"⟩),
   ("10035", ⟨"10035", "MM Mega Market Thủ Đức", some "South"⟩)]

/-- stores.py `StoreManager.get_store`: normalize then look up in
`KNOWN_STORES` (dict `.get`). -/
def getStore (storeCode : String) : Option Store :=
  knownStores.lookup (stripStoreCode storeCode)

/-- The store identifiers held by the shared `MMConfig` (config.py
`config.b2c.store_code` / `config.b2b.store_code`). -/
structure ConfigStores where
  b2cStoreCode : String
  b2bStoreCode : String
deriving DecidableEq, Repr

/-- The mutable state of stores.py `StoreManager`. -/
structure ManagerState where
  currentStore : Option Store
deriving DecidableEq, Repr

/-- stores.py `StoreManager.__init__`: current store defaults to
`KNOWN_STORES.get("10010")`. -/
def initManager : ManagerState :=
  ⟨knownStores.lookup "10010"⟩

/-- stores.py `StoreManager.set_current_store`: returns the success flag and
the state after the call. -/
def setCurrentStore (st : ManagerState) (storeCode : String) :
    Bool × ManagerState :=
  match getStore storeCode with
  | some s => (true, ⟨some s⟩)
  | none => (false, st)

/-- stores.py `StoreManager.update_config_store`: returns the success flag
and the configuration after the call. -/
def updateConfigStore (cfg : ConfigStores) (storeCode : String) :
    Bool × ConfigStores :=
  match getStore storeCode with
  | some s => (true, ⟨s.getB2cStoreCode, s.getB2bStoreCode⟩)
  | none => (false, cfg)

/-- The manager state reached from construction after a sequence of
`set_current_store` calls. -/
def runSetCurrentStore (codes : List String) : ManagerState :=
  codes.foldl (fun st c => (setCurrentStore st c).2) initManager

/-! ### Concrete fixtures

Small concrete JSON bodies and network oracles used to instantiate the
theorems below. -/

/-- A well-formed product item as the GraphQL search returns it. -/
def itemJson : Json :=
  .obj [("id", .num 1), ("uid", .str "U1"), ("name", .str "Rice"), ("sku", .str "S1"),
    ("price_range", .obj [("maximum_price", .obj [
      ("final_price", .obj [("value", .num 90), ("currency", .str "VND")]),
      ("regular_price", .obj [("value", .num 100), ("currency", .str "VND")])])]),
    ("stock_status", .str "IN_STOCK"), ("url_key", .str "rice")]

/-- The parsed form of `itemJson` for the consumer backend. -/
def parsedProduct : Product :=
  ⟨1, "U1", "Rice", "S1", mkPriceRange ⟨90, "VND"⟩ ⟨100, "VND"⟩, "IN_STOCK", "rice",
   none, [], none, some .b2c⟩

/-- A well-formed search response containing `itemJson`. -/
def goodBody : Json :=
  .obj [("data", .obj [("products", .obj [("items", .arr [itemJson]),
    ("total_count", .num 1), ("page_info", .obj [("total_pages", .num 1)])])])]

/-- A GraphQL error response whose message mentions authorization. -/
def authErrBody : Json :=
  .obj [("errors", .arr [.obj [("message", .str "Authorization required")]])]

/-- A search response whose `items` contains an empty object, i.e. an item
missing every expected field. -/
def badItemBody : Json :=
  .obj [("data", .obj [("products", .obj [("items", .arr [.obj []]),
    ("total_count", .num 1), ("page_info", .obj [("total_pages", .num 1)])])])]

/-- Network oracle: first physical request yields the authorization error,
every later one the good response; re-authentication always succeeds. -/
def envAuthOnce : NetEnv :=
  ⟨fun _ _ phys => if phys == 0 then .resp authErrBody else .resp goodBody,
   fun _ => true⟩

/-- Network oracle: every physical request yields the authorization error;
re-authentication always succeeds. -/
def envAuthLoop : NetEnv :=
  ⟨fun _ _ _ => .resp authErrBody, fun _ => true⟩

/-- Network oracle: every physical request fails at network level. -/
def envNetErr : NetEnv :=
  ⟨fun _ _ _ => .netErr, fun _ => true⟩

/-- Network oracle: first physical request fails at network level, the
retry succeeds. -/
def envRetryOnce : NetEnv :=
  ⟨fun _ _ phys => if phys == 0 then .netErr else .resp goodBody, fun _ => true⟩

/-- Network oracle: every physical request returns `badItemBody`. -/
def envBadItem : NetEnv :=
  ⟨fun _ _ _ => .resp badItemBody, fun _ => true⟩

/-- Build a product item with the given sku and final/regular prices. -/
def mkItem (sku : String) (finalV regularV : ℚ) : Json :=
  .obj [("id", .num 7), ("uid", .str ("u" ++ sku)), ("name", .str ("P" ++ sku)),
    ("sku", .str sku),
    ("price_range", .obj [("maximum_price", .obj [
      ("final_price", .obj [("value", .num finalV), ("currency", .str "VND")]),
      ("regular_price", .obj [("value", .num regularV), ("currency", .str "VND")])])]),
    ("stock_status", .str "IN_STOCK"), ("url_key", .str ("p-" ++ sku))]

/-- A search body holding the given items. -/
def mkBody (items : List Json) : Json :=
  .obj [("data", .obj [("products", .obj [("items", .arr items),
    ("total_count", .num 2), ("page_info", .obj [("total_pages", .num 1)])])])]

/-- Network oracle for the comparison witness: the consumer backend returns
skus S2 (price 50) and S1 (price 100), the business backend returns S1
(price 80), S2 (price 45) and an unmatched S3. -/
def envCompare : NetEnv :=
  ⟨fun pf _ _ =>
    match pf with
    | .b2c => .resp (mkBody [mkItem "S2" 50 50, mkItem "S1" 100 100])
    | .b2b => .resp (mkBody [mkItem "S1" 80 80, mkItem "S2" 45 45, mkItem "S3" 10 10]),
   fun _ => true⟩

/-- The store named by code `"10010"` in `KNOWN_STORES`. -/
def anPhuStore : Store :=
  ⟨"10010", "MM Mega Market An Phú", some "South"⟩

/-- The comparison list `compare_prices` produces for `envCompare`: S1 saves
20 of 100 (20 percent), S2 saves 5 of 50 (10 percent); sorted by savings
percentage descending. -/
def compareWitnessList : List PriceComparison :=
  [⟨7, "S1", "PS1", 100, 80, 20, 20, "https://online.mmvietnam.com/p-S1.html",
    "https://mmpro.vn/product/p-S1.html"⟩,
   ⟨7, "S2", "PS2", 50, 45, 5, 10, "https://online.mmvietnam.com/p-S2.html",
    "https://mmpro.vn/product/p-S2.html"⟩]

/-! ## Helper lemmas -/

/-- The retry loop itself never writes the last-request-time watermark: the
only `_rate_limit()` call sits before the loop. -/
theorem execLoop_watermark (env : NetEnv) (pf : Platform) (vars : Json) (n : Nat) :
    ∀ fuel attempt phys nAuth tv,
      (execLoop env pf vars n fuel attempt phys nAuth tv).watermarkUpdates = 0 := by
  intro fuel
  induction fuel with
  | zero => intros; rfl
  | succ f ih =>
    intro attempt phys nAuth tv
    unfold execLoop
    (repeat' split) <;> simp [ih]

/-- Behaviour of the retry loop when every physical request fails at network
level: it runs its full fuel, sleeping `2 ^ attempt` after every failure but
the last, and falls out returning `None`. -/
theorem execLoop_allNetErr (env : NetEnv) (pf : Platform) (vars : Json) (n : Nat)
    (h : ∀ i, env.outcome pf vars i = .netErr) :
    ∀ fuel attempt phys nAuth tv, attempt + fuel = n →
      execLoop env pf vars n fuel attempt phys nAuth tv =
        ⟨.ok none, fuel, (List.range (fuel - 1)).map (fun i => 2 ^ (attempt + i)), 0,
         List.replicate fuel tv, 0⟩ := by
  intro fuel
  induction fuel with
  | zero => intros; rfl
  | succ f ih =>
    intro attempt phys nAuth tv hn
    unfold execLoop
    rw [h phys]
    rcases f with _ | f'
    · have hx : ¬ attempt < n - 1 := by omega
      simp [hx]
    · have hc : attempt < n - 1 := by omega
      rw [if_pos hc, ih (attempt + 1) (phys + 1) nAuth tv (by omega)]
      simp only [Nat.add_sub_cancel, List.replicate_succ]
      congr 1
      simp only [List.range_succ_eq_map, List.map_cons, List.map_map, Nat.add_zero]
      congr 1
      apply List.map_congr_left
      intro i _
      simp only [Function.comp_apply]
      congr 1
      omega

/-- A product delivered by the sku dictionary built from the business
products is one of those products and carries the requested sku. -/
theorem skuDictGet_mem (ps : List Product) (s : String) (p : Product)
    (h : skuDictGet ps s = some p) : p ∈ ps ∧ p.sku = s := by
  have key : ∀ (qs : List Product) (acc : Option Product),
      qs.foldl (fun acc q => if q.sku == s then some q else acc) acc = some p →
      (p ∈ qs ∧ p.sku = s) ∨ acc = some p := by
    intro qs
    induction qs with
    | nil => intro acc h'; exact Or.inr h'
    | cons q qs ih =>
      intro acc h'
      simp only [List.foldl_cons] at h'
      rcases ih _ h' with ⟨hm, hs⟩ | hacc
      · exact Or.inl ⟨List.mem_cons_of_mem _ hm, hs⟩
      · by_cases hq : q.sku == s
        · rw [if_pos hq] at hacc
          cases hacc
          exact Or.inl ⟨List.mem_cons_self _ _, by simpa using hq⟩
        · rw [if_neg hq] at hacc
          exact Or.inr hacc
  rcases key ps none h with h' | h'
  · exact h'
  · simp at h'

/-- Every comparison produced by the join step of `compare_prices` matches a
consumer product and a business product with the same sku. -/
theorem mem_buildComparisons (cr br : SearchResult) (c : PriceComparison)
    (h : c ∈ buildComparisons cr br) :
    (∃ p ∈ cr.products, p.sku = c.sku) ∧ (∃ p ∈ br.products, p.sku = c.sku) := by
  unfold buildComparisons at h
  rw [List.mem_insertionSort] at h
  rcases List.mem_filterMap.mp h with ⟨cp, hcp, hmap⟩
  rcases Option.map_eq_some'.mp hmap with ⟨bp, hbp, hc⟩
  have hsku : c.sku = cp.sku := by rw [← hc]; rfl
  obtain ⟨hbpm, hbps⟩ := skuDictGet_mem _ _ _ hbp
  exact ⟨⟨cp, hcp, hsku.symm⟩, ⟨bp, hbpm, hbps.trans hsku.symm⟩⟩

/-- The join step of `compare_prices` produces a list sorted by savings
percentage in descending order. -/
theorem buildComparisons_sorted (cr br : SearchResult) :
    (buildComparisons cr br).Sorted savingsGE :=
  List.sorted_insertionSort savingsGE _

/-! ## Claims -/

/-- C1, counterexample.  The claim says an authorization error answered by a
successful re-authentication is retried within the same attempt, without
consuming retry budget, and yields the retried result.  In the code the
`continue` advances the `for attempt` loop: with a retry budget of 1, an
authorization error plus a successful re-authentication still returns `None`
(the oracle `envAuthOnce` would have answered the retry with `goodBody`),
and with persistent authorization errors under budget 3 the executor
re-authenticates three times, not exactly once. -/
theorem claim_C1_counterexample :
    (executeQuery envAuthOnce .b2b (.obj []) 1).result = .ok none ∧
    (executeQuery envAuthOnce .b2b (.obj []) 1).nAuthCalls = 1 ∧
    (executeQuery envAuthLoop .b2b (.obj []) 3).nAuthCalls = 3 :=
  ⟨rfl, rfl, rfl⟩

/-- C1, amended.  When the business backend answers the first attempt with
an errors array mentioning authorization and re-authentication succeeds, the
executor refreshes the bearer headers (token version 1 on the second
physical request) and retries as the next attempt of the loop, consuming one
unit of the retry budget; with at least one unit left, the clean response to
the retried request is returned.  Each authorization-error response triggers
its own re-authentication. -/
theorem claim_C1_amended (env : NetEnv) (n : Nat) (vars e j : Json)
    (h0 : env.outcome .b2b vars 0 = .resp e)
    (he : pyContains e "errors" = .ok true)
    (ha : authErrorCheck .b2b e = .ok true)
    (hauth : env.authResult 0 = true)
    (h1 : env.outcome .b2b vars 1 = .resp j)
    (hj : pyContains j "errors" = .ok false) :
    executeQuery env .b2b vars (n + 2) = ⟨.ok (some j), 2, [], 1, [0, 1], 1⟩ := by
  simp [executeQuery, execLoop, h0, he, ha, hauth, h1, hj]

/-- C1, witness for the amended claim at the concrete oracle `envAuthOnce`
with retry budget 2. -/
theorem claim_C1_amended_witness :
    executeQuery envAuthOnce .b2b (.obj []) 2 =
      ⟨.ok (some goodBody), 2, [], 1, [0, 1], 1⟩ :=
  claim_C1_amended envAuthOnce 0 (.obj []) authErrBody goodBody rfl rfl rfl rfl rfl rfl

/-- C2, counterexample.  The claim says `search_products` never raises for
any malformed response shape, including items missing expected fields.  A
response whose `items` holds an empty object makes `_parse_product` raise
`KeyError("price_range")`, which escapes the client. -/
theorem claim_C2_counterexample :
    searchProducts envBadItem 3 "rice" .b2c 1 24 "relevance" =
      .error (.keyError "price_range") :=
  rfl

/-- C2, amended.  `search_products` returns an absent result, without
raising, whenever the executor failed or the guard of line 188 holds (no
truthy body, no `data` field, or no `products` field); malformed items
inside a well-formed `products` payload, however, raise past the client
(see the counterexample). -/
theorem claim_C2_amended (env : NetEnv) (n : Nat) (term : String) (pf : Platform)
    (page pageSize : Int) (sortBy : String) (r : Option Json)
    (hr : (executeQuery env pf (searchVariables term page pageSize sortBy) n).result = .ok r)
    (hg : guardResult r = .ok true) :
    searchProducts env n term pf page pageSize sortBy = .ok none := by
  simp [searchProducts, hr, hg, Bind.bind, Except.bind, pure, Except.pure]

/-- C2, witness for the amended claim: with every request failing at network
level the executor reports `None` and the search returns an absent result. -/
theorem claim_C2_amended_witness :
    searchProducts envNetErr 3 "rice" .b2c 1 24 "relevance" = .ok none :=
  claim_C2_amended envNetErr 3 "rice" .b2c 1 24 "relevance" none rfl rfl

/-- C3.  Whenever `compare_prices` returns normally: if either backend's
single-page search returned an absent result the comparison list is empty;
every returned comparison's sku occurs among both the consumer and the
business products; and the list is sorted by savings percentage in
descending order. -/
theorem claim_C3 (env : NetEnv) (n : Nat) (term : String) (m : Int)
    (l : List PriceComparison)
    (h : comparePrices env n term m = .ok l) :
    ((searchProducts env n term .b2c 1 m "relevance" = .ok none ∨
      searchProducts env n term .b2b 1 m "relevance" = .ok none) → l = []) ∧
    (∀ c ∈ l,
      (∃ cr, searchProducts env n term .b2c 1 m "relevance" = .ok (some cr) ∧
        ∃ p ∈ cr.products, p.sku = c.sku) ∧
      (∃ br, searchProducts env n term .b2b 1 m "relevance" = .ok (some br) ∧
        ∃ p ∈ br.products, p.sku = c.sku)) ∧
    l.Sorted savingsGE := by
  unfold comparePrices at h
  cases hc : searchProducts env n term .b2c 1 m "relevance" with
  | error e =>
    rw [hc] at h
    exact absurd h (by simp [Bind.bind, Except.bind])
  | ok cr =>
    cases hb : searchProducts env n term .b2b 1 m "relevance" with
    | error e =>
      rw [hc, hb] at h
      exact absurd h (by simp [Bind.bind, Except.bind])
    | ok br =>
      rw [hc, hb] at h
      simp only [Bind.bind, Except.bind] at h
      cases cr with
      | none =>
        simp only [pure, Except.pure, Except.ok.injEq] at h
        subst h
        exact ⟨fun _ => rfl, fun c hc' => absurd hc' (List.not_mem_nil c),
          List.sorted_nil⟩
      | some crv =>
        cases br with
        | none =>
          simp only [pure, Except.pure, Except.ok.injEq] at h
          subst h
          exact ⟨fun _ => rfl, fun c hc' => absurd hc' (List.not_mem_nil c),
            List.sorted_nil⟩
        | some brv =>
          simp only [pure, Except.pure, Except.ok.injEq] at h
          subst h
          refine ⟨?_, ?_, buildComparisons_sorted crv brv⟩
          · rintro (hnone | hnone) <;> simp at hnone
          · intro c hmem
            obtain ⟨hcs, hbs⟩ := mem_buildComparisons crv brv c hmem
            exact ⟨⟨crv, rfl, hcs⟩, ⟨brv, rfl, hbs⟩⟩

/-- C3, witness at the concrete oracle `envCompare`, whose comparison list
is `compareWitnessList`. -/
theorem claim_C3_witness :
    ((searchProducts envCompare 3 "rice" .b2c 1 2 "relevance" = .ok none ∨
      searchProducts envCompare 3 "rice" .b2b 1 2 "relevance" = .ok none) →
      compareWitnessList = []) ∧
    (∀ c ∈ compareWitnessList,
      (∃ cr, searchProducts envCompare 3 "rice" .b2c 1 2 "relevance" = .ok (some cr) ∧
        ∃ p ∈ cr.products, p.sku = c.sku) ∧
      (∃ br, searchProducts envCompare 3 "rice" .b2b 1 2 "relevance" = .ok (some br) ∧
        ∃ p ∈ br.products, p.sku = c.sku)) ∧
    compareWitnessList.Sorted savingsGE :=
  claim_C3 envCompare 3 "rice" 2 compareWitnessList (by with_unfolding_all rfl)

/-- C4.  When every physical request fails at network level, the executor
makes exactly `retryAttempts` physical attempts, sleeps `2 ^ attempt`
seconds between consecutive attempts (attempts 0 through
`retryAttempts - 2`), performs no re-authentication, and returns an absent
result instead of raising. -/
theorem claim_C4 (env : NetEnv) (pf : Platform) (vars : Json) (n : Nat)
    (h : ∀ i, env.outcome pf vars i = .netErr) :
    executeQuery env pf vars n =
      ⟨.ok none, n, (List.range (n - 1)).map (fun i => 2 ^ i), 0,
       List.replicate n 0, 1⟩ := by
  unfold executeQuery
  rw [execLoop_allNetErr env pf vars n h n 0 0 0 0 (by omega)]
  simp

/-- C4, witness: three attempts against an always-failing network sleep 1
then 2 seconds and report failure. -/
theorem claim_C4_witness :
    executeQuery envNetErr .b2c (.obj []) 3 =
      ⟨.ok none, 3, (List.range 2).map (fun i => 2 ^ i), 0, List.replicate 3 0, 1⟩ :=
  claim_C4 envNetErr .b2c (.obj []) 3 (fun _ => rfl)

/-- C5.  For every PriceRange constructed from a final and a regular price:
the discount equals regular minus final, a discount is present exactly when
that difference is positive, and the discount percentage is 0 when the
regular price is at most 0 and `discount / regular * 100` otherwise. -/
theorem claim_C5 (finalP regularP : Price) :
    (mkPriceRange finalP regularP).discountAmount = regularP.value - finalP.value ∧
    ((mkPriceRange finalP regularP).hasDiscount = true ↔
      (mkPriceRange finalP regularP).discountAmount > 0) ∧
    (mkPriceRange finalP regularP).discountPercentage =
      (if regularP.value > 0 then
        (mkPriceRange finalP regularP).discountAmount / regularP.value * 100 else 0) := by
  refine ⟨rfl, ?_, rfl⟩
  simp [PriceRange.hasDiscount]

/-- C6, counterexample.  The claim says every physical request attempt
updates the last-request-time watermark.  With one network failure followed
by a successful retry, two physical requests are issued but the watermark is
written only once (by the single `_rate_limit()` call before the loop). -/
theorem claim_C6_counterexample :
    (executeQuery envRetryOnce .b2c (.obj []) 2).nPhysical = 2 ∧
    (executeQuery envRetryOnce .b2c (.obj []) 2).watermarkUpdates ≠
      (executeQuery envRetryOnce .b2c (.obj []) 2).nPhysical :=
  ⟨rfl, by decide⟩

/-- C6, amended.  Every `_execute_query` call updates the shared
last-request-time watermark exactly once — before the first physical
attempt, regardless of how many attempts follow and of their outcomes (so
not only on success, but also not once per attempt). -/
theorem claim_C6_amended (env : NetEnv) (pf : Platform) (vars : Json) (n : Nat) :
    (executeQuery env pf vars n).watermarkUpdates = 1 := by
  unfold executeQuery
  simp [execLoop_watermark]

/-- C7, counterexample.  The claim says `resolve(" b2c_10010_vi ")` (with
surrounding spaces, as the spec writes it) returns the same store as
`resolve("10010")`.  Normalization strips only the `b2c_`/`mm_` prefixes and
the `_vi` suffix, not whitespace, so the spaced code resolves to nothing
while `"10010"` resolves to the An Phú store. -/
theorem claim_C7_counterexample :
    getStore " b2c_10010_vi " = none ∧
    getStore "10010" = some anPhuStore ∧
    getStore " b2c_10010_vi " ≠ getStore "10010" :=
  ⟨rfl, rfl, by decide⟩

/-- C7, amended.  Without surrounding whitespace the three spellings
`"b2c_10010_vi"`, `"mm_10010_vi"` and `"10010"` all resolve to the same
known store: the backend-specific prefixes and suffix are stripped before
lookup.  Codes carrying surrounding whitespace fail to resolve. -/
theorem claim_C7_amended :
    getStore "b2c_10010_vi" = getStore "10010" ∧
    getStore "mm_10010_vi" = getStore "10010" ∧
    getStore "10010" = some anPhuStore ∧
    getStore " b2c_10010_vi " = none :=
  ⟨rfl, rfl, rfl, rfl⟩

/-- C8.  For every store code that resolves to no known store,
`set_current_store` returns false and leaves the current-store selection
unchanged, and `update_config_store` returns false and leaves both backends'
store identifiers in the shared configuration unchanged. -/
theorem claim_C8 (st : ManagerState) (cfg : ConfigStores) (code : String)
    (h : getStore code = none) :
    setCurrentStore st code = (false, st) ∧
    updateConfigStore cfg code = (false, cfg) := by
  constructor <;> simp [setCurrentStore, updateConfigStore, h]

/-- C8, witness at the unknown code `"99999"` from the default state and
configuration. -/
theorem claim_C8_witness :
    setCurrentStore initManager "99999" = (false, initManager) ∧
    updateConfigStore ⟨"b2c_10010_vi", "mm_10010_vi"⟩ "99999" =
      (false, ⟨"b2c_10010_vi", "mm_10010_vi"⟩) :=
  claim_C8 initManager ⟨"b2c_10010_vi", "mm_10010_vi"⟩ "99999" rfl

/-- C9.  The `sort_by` argument of `search_products` has no effect: for any
two sort values the query variables built for the request coincide and the
whole call returns the same value. -/
theorem claim_C9 (env : NetEnv) (n : Nat) (term : String) (pf : Platform)
    (page pageSize : Int) (s1 s2 : String) :
    searchVariables term page pageSize s1 = searchVariables term page pageSize s2 ∧
    searchProducts env n term pf page pageSize s1 =
      searchProducts env n term pf page pageSize s2 :=
  ⟨rfl, rfl⟩

/-- C10.  The store manager's current-store selection starts as the known
store with code `"10010"` and stays present across every sequence of
`set_current_store` calls: a call either installs a successfully resolved
store or leaves the state untouched, never clearing the selection. -/
theorem claim_C10 :
    initManager.currentStore = some anPhuStore ∧
    ∀ codes : List String, (runSetCurrentStore codes).currentStore.isSome = true := by
  refine ⟨rfl, ?_⟩
  have key : ∀ (codes : List String) (st : ManagerState),
      st.currentStore.isSome = true →
      (codes.foldl (fun st c => (setCurrentStore st c).2) st).currentStore.isSome = true := by
    intro codes
    induction codes with
    | nil => intro st h; exact h
    | cons c cs ih =>
      intro st h
      apply ih
      unfold setCurrentStore
      cases hg : getStore c <;> simp [hg, h]
  intro codes
  exact key codes initManager rfl

end MM
